import Mathlib

/-!
Shallow embedding of `znet/web.go` (package znet of zlsgo): the
listener-orchestration and lifecycle core of the HTTP engine.

Modelling conventions:
* Go strings are Lean `String`; `strings.Contains(s, ":")` is membership of
  the rune in `s.data`.
* A call to `Log.Fatalf` / `Log.Panic` terminates the process; functions that
  may do so return `Option`/`Except`, with `none`/`.error` standing for the
  fatal exit.
* The OS-assigned ephemeral port obtained from the throwaway `net.Listen`
  in `getPort` is an oracle parameter (`Option Nat`; `none` models the
  listen failure).
* Concurrency: each goroutine body is embedded as the sequential trace of
  observable events it performs (`Event` below); the `sync.WaitGroup`
  barrier is modelled by counting `Add` and `Done` occurrences; the
  `sync.Map` is an association list with store-overwrite semantics.
-/

namespace Znet

/-! ### Constants from the `const` block of web.go -/

def DebugMode : String := "dev"

def ProdMode : String := "prod"

def TestMode : String := "test"

def defaultServerName : String := "Z"

def prodCode : Nat := 0

/-- Go iota: `debugCode = iota` sits at index 7 of the const block. -/
def debugCode : Nat := 7

def testCode : Nat := 8

/-! ### Data model -/

/-- Log-severity classes used by zlog calls in web.go.  `fatal` and `panic`
terminate the process. -/
inductive LogAction where
  | fatal (msg : String)
  | panicLog (msg : String)
  | errorL
  | warn
  | info
  | success
  deriving DecidableEq, Repr

/-- Engine log level as set by `SetLogLevel` (zlog.LogSuccess / LogDump /
LogInfo are the only levels web.go uses). -/
inductive ZLogLevel where
  | success
  | dump
  | info
  deriving DecidableEq, Repr

/-- The dynamic type of `TlsCfg.HTTPProcessing` (`interface{}` in Go): a
domain string, a custom `http.Handler`, or anything else (incl. nil). -/
inductive HTTPProcessing where
  | str (domain : String)
  | handler
  | other
  deriving DecidableEq, Repr

/-- TlsCfg of web.go.  `Config *tls.Config` is abstracted to presence
(`hasConfig`), which is all `isTls` inspects. -/
structure TlsCfg where
  cert : String := ""
  key : String := ""
  httpAddr : String := ""
  httpProcessing : HTTPProcessing := .other
  hasConfig : Bool := false
  deriving DecidableEq, Repr

/-- addrSt of web.go: one bind target. -/
structure AddrSt where
  addr : String
  tls : TlsCfg := {}
  deriving DecidableEq, Repr

/-- Engine of web.go.  The routing tree, context pool and cache are opaque
to the orchestration core and are omitted; `logTag` mirrors the
`zlog.New("[" + name + "] ")` prefix that carries the engine name. -/
structure Engine where
  logTag : String
  logLevel : ZLogLevel
  readTimeout : Nat
  writeTimeout : Nat
  webModeName : String
  webMode : Nat
  addr : List AddrSt
  deriving DecidableEq, Repr

/-- defaultAddr of web.go. -/
def defaultAddr : AddrSt := { addr := ":3788" }

/-- Body of `New` before the duplicate-name check: the freshly constructed
default Engine for `name`. -/
def newEngine (name : String) : Engine :=
  { logTag := "[" ++ name ++ "] "
    logLevel := .info
    readTimeout := 0
    writeTimeout := 0
    webModeName := ProdMode
    webMode := prodCode
    addr := [defaultAddr] }

/-! ### Address Resolver: getPort -/

/-- Go `strings.Contains(s, c)` for a single rune. -/
def containsRune (s : String) (c : Char) : Bool :=
  s.data.contains c

/-- getPort of web.go.  `freePort` is the OS oracle for the throwaway
`net.Listen("tcp", ":0")`; `none` models the listen failure, in which case
`Log.Fatalf` terminates the process (result `none`). -/
def getPort (freePort : Option Nat) (addr : String) : Option String :=
  let addr := if containsRune addr ':' then addr else ":" ++ addr
  if addr ≠ ":0" then
    some addr
  else
    match freePort with
    | some p => some (":" ++ toString p)
    | none => none

/-! ### SetMode -/

/-- Helper: is an `Except` an `.ok`? -/
def exceptOk {ε α : Type} : Except ε α → Bool
  | .ok _ => true
  | .error _ => false

/-- SetMode of web.go.  The `default` switch arm calls `Log.Panic`,
modelled as `.error`. -/
def SetMode (e : Engine) (value : String) : Except String Engine :=
  if value = ProdMode ∨ value = "" then
    let value := if value = "" then ProdMode else value
    .ok { e with webMode := prodCode, webModeName := value, logLevel := .success }
  else if value = DebugMode then
    .ok { e with webMode := debugCode, webModeName := value, logLevel := .dump }
  else if value = TestMode then
    .ok { e with webMode := testCode, webModeName := value, logLevel := .info }
  else
    .error ("web mode unknown: " ++ value)

/-! ### Engine Registry: New and Server -/

/-- The process-wide `zservers` map, as an association list (first match
wins on lookup; `New` only ever inserts an absent key). -/
abbrev Registry := List (String × Engine)

/-- Map lookup `zservers[name]`. -/
def lookupName (r : Registry) (n : String) : Option Engine :=
  (r.find? (fun p => p.1 == n)).map Prod.snd

/-- New of web.go.  The variadic `serverName ...string` is a list; a
duplicate name hits `Log.Fatalf` (modelled `.error`), otherwise the engine
is stored and returned. -/
def New (r : Registry) (serverName : List String) : Except String (Engine × Registry) :=
  let name := match serverName with
    | [] => defaultServerName
    | n :: _ => n
  let e := newEngine name
  if (lookupName r name).isSome then
    .error ("serverName: " ++ name ++ " is has")
  else
    .ok (e, (name, e) :: r)

/-- Server of web.go.  Returns (engine, ok, registry after the call,
whether the missing-name warning was logged). -/
def Server (r : Registry) (serverName : List String) :
    Except String (Engine × Bool × Registry × Bool) :=
  let name := match serverName with
    | [] => defaultServerName
    | n :: _ => n
  match lookupName r name with
  | some e => .ok (e, true, r, false)
  | none =>
    match New r [name] with
    | .ok (e, r2) => .ok (e, false, r2, true)
    | .error m => .error m

/-! ### Per-listener serve-return handling (end of the goroutine in Run) -/

/-- Result of the blocking serve call: Go `error` restricted to the three
cases the code distinguishes: nil, `http.ErrServerClosed`, anything else. -/
inductive ServeErr where
  | nilErr
  | closed
  | other (msg : String)
  deriving DecidableEq, Repr

/-- The message `%s`-formatted into `Fatalf("Listen: %s\n", err)`. -/
def serveErrStr : ServeErr → String
  | .nilErr => "nil"
  | .closed => "http: Server closed"
  | .other m => m

/-- The `if err != nil && err != http.ErrServerClosed { Fatalf } else if
err != http.ErrServerClosed { Info }` tail of the listener goroutine:
the log actions it performs. -/
def handleServeReturn (err : ServeErr) : List LogAction :=
  if err ≠ ServeErr.nilErr ∧ err ≠ ServeErr.closed then
    [LogAction.fatal ("Listen: " ++ serveErrStr err)]
  else if err ≠ ServeErr.closed then
    [LogAction.info]
  else
    []

/-! ### Run: orchestration model

Run launches one goroutine per (engine, bind target) pair (`m.Add(1)` each),
evaluates `isKill()`, builds one 20-second shutdown context, spawns the
successor process when allowed, ranges over the address-keyed `sync.Map`
starting one shutdown goroutine per entry (each ends in `m.Done()`),
waits on the barrier, runs `ShutdownDone` if set and sleeps 100 ms. -/

/-- The three mutually exclusive companion-listener strategies selected by
the type switch on `cfg.HTTPProcessing`. -/
inductive Strategy where
  | redirect (domain : String)
  | custom
  | engine
  deriving DecidableEq, Repr

/-- The `switch processing := cfg.HTTPProcessing.(type)` of the companion
goroutine. -/
def selectStrategy : HTTPProcessing → Strategy
  | .str d => .redirect d
  | .handler => .custom
  | .other => .engine

/-- Observable events of the goroutines of Run. -/
inductive Event where
  | ctxTimeout (seconds : Nat)
  | spawnAttempt
  | storeSrv (addr : String)
  | companionStart (addr : String) (strat : Strategy)
  | serveCall (addr : String) (tlsMode : Bool)
  | shutdownCall (addr : String)
  | forceClose (addr : String)
  | done
  | callback
  | sleep (ms : Nat)
  | log (a : LogAction)
  deriving DecidableEq, Repr

/-- isTls of the listener goroutine: `cfg.Cert != "" || cfg.Config != nil`. -/
def isTls (t : TlsCfg) : Bool :=
  t.cert ≠ "" || t.hasConfig

/-- Whether the companion plaintext goroutine is launched: the nested
`if isTls { ... if cfg.HTTPAddr != "" { go ... } }`. -/
def companionStarted (t : TlsCfg) : Bool :=
  isTls t && t.httpAddr ≠ ""

/-- Trace of the companion plaintext goroutine: success banner, the
`http.ListenAndServe` call with the selected handler, and — since that
call only returns on failure — the `Errorf` line. -/
def companionTrace (httpAddr : String) (p : HTTPProcessing) : List Event :=
  [Event.log LogAction.success,
   Event.companionStart httpAddr (selectStrategy p),
   Event.log LogAction.errorL]

/-- Trace of one primary listener goroutine of Run: resolve the address,
store into the `sync.Map`, optionally launch the companion, block in
serve, then handle the returned error.  `none` is the fatal exit inside
`getPort`. -/
def listenerTrace (freePort : Option Nat) (cfg : AddrSt) (serveErr : ServeErr) :
    Option (List Event) :=
  match getPort freePort cfg.addr with
  | none => none
  | some addr =>
    some ([Event.storeSrv addr] ++
      (if companionStarted cfg.tls then
        match getPort freePort cfg.tls.httpAddr with
        | some httpAddr => [Event.companionStart httpAddr (selectStrategy cfg.tls.httpProcessing)]
        | none => []
      else []) ++
      [Event.serveCall addr (isTls cfg.tls)] ++
      (handleServeReturn serveErr).map Event.log)

/-- runNewProcess of web.go: warn when the fingerprint is empty, attempt
the spawn, log (never fatally) a spawn error. -/
def runNewProcessTrace (fileMd5 : String) (spawnErr : Bool) : List Event :=
  (if fileMd5 = "" then [Event.log LogAction.warn] else []) ++
  [Event.spawnAttempt] ++
  (if spawnErr then [Event.log LogAction.errorL] else [])

/-- One shutdown goroutine of `srvMap.Range`: optional banner, the bounded
`srv.Shutdown(ctx)` (`shutErr` says whether it returned an error), the
error/force-close or success handling, and `m.Done()`. -/
def shutdownTaskTrace (iskill : Bool) (shutErr : Bool) (addr : String) : List Event :=
  (if iskill then [Event.log LogAction.info] else []) ++
  [Event.shutdownCall addr] ++
  (if shutErr then
    (if iskill then [Event.log LogAction.errorL] else []) ++ [Event.forceClose addr]
  else
    (if iskill then [Event.log LogAction.success] else [])) ++
  [Event.done]

/-- One launched primary listener, as seen by the barrier accounting of
Run: its resolved (post-getPort) bind address and whether its
`srv.Shutdown(ctx)` call will exceed the deadline. -/
structure ListenerSpec where
  addr : String
  shutdownErr : Bool
  deriving DecidableEq, Repr

/-- `sync.Map.Store`: overwrite the entry with the same key, else append. -/
def mapStore (m : List (String × ListenerSpec)) (k : String) (v : ListenerSpec) :
    List (String × ListenerSpec) :=
  if (m.map Prod.fst).contains k then
    m.map (fun p => if p.1 = k then (k, v) else p)
  else
    m ++ [(k, v)]

/-- The contents of `srvMap` once every listener goroutine has performed
its `srvMap.Store(addr, ...)`. -/
def storeAll (ls : List ListenerSpec) : List (String × ListenerSpec) :=
  ls.foldl (fun m l => mapStore m l.addr l) []

/-- Keys of a `sync.Map` snapshot (the bound addresses). -/
def entryKeys (m : List (String × ListenerSpec)) : List String :=
  m.map Prod.fst

/-- Inputs of one orchestration run of Run. -/
structure RunInput where
  listeners : List ListenerSpec
  iskill : Bool
  closeHotRestart : Bool
  fileMd5 : String
  spawnErr : Bool
  shutdownDoneSet : Bool
  deriving DecidableEq, Repr

/-- Number of `m.Add(1)` calls: one per (engine, bind target) pair. -/
def addCount (i : RunInput) : Nat :=
  i.listeners.length

/-- Entries of `srvMap` that `Range` visits: one shutdown goroutine each. -/
def srvEntries (i : RunInput) : List (String × ListenerSpec) :=
  storeAll i.listeners

/-- Number of `m.Done()` calls: one per `srvMap` entry. -/
def doneCount (i : RunInput) : Nat :=
  (srvEntries i).length

/-- Whether `m.Wait()` ever returns: the counter reaches zero exactly when
the Done calls match the Add calls. -/
def runReleases (i : RunInput) : Bool :=
  doneCount i == addCount i

/-- Events of the main Run flow up to `m.Wait()` (the shutdown goroutine
traces are interleaved before the barrier releases; their relative order
with each other is immaterial to the claims). -/
def runPreWait (i : RunInput) : List Event :=
  [Event.ctxTimeout 20] ++
  (if !i.iskill && !i.closeHotRestart then runNewProcessTrace i.fileMd5 i.spawnErr else []) ++
  (srvEntries i).flatMap (fun p => shutdownTaskTrace i.iskill p.2.shutdownErr p.1)

/-- The whole trace of Run when the barrier releases: pre-wait events, then
`ShutdownDone()` if set, then the 100 ms drain sleep. -/
def runFull (i : RunInput) : List Event :=
  runPreWait i ++
  (if i.shutdownDoneSet then [Event.callback] else []) ++
  [Event.sleep 100]

/-- Run as a whole: `some` trace when `m.Wait()` releases, `none` when the
barrier can never release (Run blocks forever). -/
def runTrace (i : RunInput) : Option (List Event) :=
  if runReleases i then some (runFull i) else none

/-! ## Helper lemmas -/

theorem entryKeys_mapStore (m : List (String × ListenerSpec)) (k : String) (v : ListenerSpec) :
    entryKeys (mapStore m k v) =
      if k ∈ entryKeys m then entryKeys m else entryKeys m ++ [k] := by
  by_cases h : k ∈ entryKeys m
  · rw [if_pos h]
    unfold mapStore
    rw [if_pos (by simpa [entryKeys] using h)]
    unfold entryKeys
    rw [List.map_map]
    apply List.map_congr_left
    intro p _
    by_cases hp : p.1 = k
    · simp [hp]
    · simp [hp]
  · rw [if_neg h]
    unfold mapStore
    rw [if_neg (by simpa [entryKeys] using h)]
    simp [entryKeys]

theorem storeFold_keys (ls : List ListenerSpec) (m : List (String × ListenerSpec))
    (hm : (entryKeys m).Nodup) :
    (entryKeys (ls.foldl (fun m l => mapStore m l.addr l) m)).Nodup ∧
    (entryKeys (ls.foldl (fun m l => mapStore m l.addr l) m)).toFinset =
      (entryKeys m).toFinset ∪ (ls.map ListenerSpec.addr).toFinset := by
  induction ls generalizing m with
  | nil => simp [hm]
  | cons a tl ih =>
    have hk := entryKeys_mapStore m a.addr a
    by_cases h : a.addr ∈ entryKeys m
    · rw [if_pos h] at hk
      have step := ih (mapStore m a.addr a) (by rw [hk]; exact hm)
      refine ⟨step.1, ?_⟩
      rw [List.foldl_cons] at *
      rw [step.2, hk]
      simp only [List.map_cons, List.toFinset_cons]
      rw [Finset.union_insert]
      rw [Finset.insert_eq_self.2]
      exact Finset.mem_union_left _ (List.mem_toFinset.2 h)
    · rw [if_neg h] at hk
      have hnodup : (entryKeys (mapStore m a.addr a)).Nodup := by
        rw [hk]
        exact List.Nodup.append hm (List.nodup_singleton _)
          (by simpa using fun hmem => h hmem)
      have step := ih (mapStore m a.addr a) hnodup
      refine ⟨step.1, ?_⟩
      rw [List.foldl_cons] at *
      rw [step.2, hk]
      simp only [List.toFinset_append, List.map_cons, List.toFinset_cons]
      simp [Finset.union_assoc, Finset.insert_eq]

theorem storeAll_length (ls : List ListenerSpec) :
    (storeAll ls).length = (ls.map ListenerSpec.addr).toFinset.card := by
  have h := storeFold_keys ls [] (by simp [entryKeys])
  unfold storeAll
  have hlen : (List.foldl (fun m l => mapStore m l.addr l) [] ls).length
      = (entryKeys (List.foldl (fun m l => mapStore m l.addr l) [] ls)).length := by
    simp [entryKeys]
  rw [hlen, ← List.toFinset_card_of_nodup h.1, h.2]
  simp [entryKeys]

theorem storeAll_length_eq_iff (ls : List ListenerSpec) :
    (storeAll ls).length = ls.length ↔ (ls.map ListenerSpec.addr).Nodup := by
  rw [storeAll_length]
  constructor
  · intro h
    have hcard := List.card_toFinset (ls.map ListenerSpec.addr)
    have hlen : (ls.map ListenerSpec.addr).dedup.length = (ls.map ListenerSpec.addr).length := by
      rw [← hcard, h, List.length_map]
    exact List.dedup_eq_self.1
      ((List.dedup_sublist (ls.map ListenerSpec.addr)).eq_of_length hlen)
  · intro h
    rw [List.toFinset_card_of_nodup h, List.length_map]

theorem storeAll_length_lt (ls : List ListenerSpec) (h : ¬ (ls.map ListenerSpec.addr).Nodup) :
    (storeAll ls).length < ls.length := by
  have hle : (storeAll ls).length ≤ ls.length := by
    rw [storeAll_length]
    calc (ls.map ListenerSpec.addr).toFinset.card ≤ (ls.map ListenerSpec.addr).length :=
      List.toFinset_card_le _
    _ = ls.length := List.length_map _ _
  rcases Nat.lt_or_ge (storeAll ls).length ls.length with hlt | hge
  · exact hlt
  · exact absurd ((storeAll_length_eq_iff ls).1 (Nat.le_antisymm hle hge)) h

/-! ## Claim theorems -/

/-- C1 counterexample: the claim says the `http.ErrServerClosed` return is
"logged without escalation", but the listener tail performs no log action
at all on the sentinel (the `else if err != http.ErrServerClosed` guard is
false there), in particular no informational line. -/
theorem C1_counterexample :
    handleServeReturn ServeErr.closed = [] ∧
    LogAction.info ∉ handleServeReturn ServeErr.closed := by
  decide

/-- C1 (amended): on return from the blocking serve call, the
`http.ErrServerClosed` sentinel is silently ignored — neither fatal nor
logged; a nil return is logged informationally; any other error is fatal
(`Log.Fatalf` terminates the process). -/
theorem C1_serve_return (m : String) :
    handleServeReturn ServeErr.closed = [] ∧
    (∀ s, LogAction.fatal s ∉ handleServeReturn ServeErr.closed) ∧
    handleServeReturn ServeErr.nilErr = [LogAction.info] ∧
    handleServeReturn (ServeErr.other m) = [LogAction.fatal ("Listen: " ++ m)] := by
  refine ⟨by decide, ?_, by decide, ?_⟩
  · intro s
    simp [handleServeReturn]
  · simp [handleServeReturn, serveErrStr]

/-- C3 counterexample: the claim says every input lacking a colon yields the
input with a colon prepended, so input "0" should yield ":0"; getPort
instead resolves "0" through the ephemeral-port oracle (here 54321). -/
theorem C3_counterexample :
    getPort (some 54321) "0" = some ":54321" ∧
    getPort (some 54321) "0" ≠ some (":" ++ "0") := by
  decide

/-- C3 (amended): an input lacking a colon is returned with ":" prepended
unless that form is ":0" (i.e. unless the input is "0"); an input
containing a colon other than ":0" is returned unchanged; ":0" (and hence
also "0") is replaced by ":p" with p the OS-assigned free port from the
throwaway listener; failure to obtain that port is fatal (None). -/
theorem C3_getPort (fp : Nat) (s : String) :
    (containsRune s ':' = false → ":" ++ s ≠ ":0" →
      getPort (some fp) s = some (":" ++ s)) ∧
    (containsRune s ':' = true → s ≠ ":0" → getPort (some fp) s = some s) ∧
    getPort (some fp) ":0" = some (":" ++ toString fp) ∧
    getPort (some fp) "0" = some (":" ++ toString fp) ∧
    getPort (none : Option Nat) ":0" = none := by
  refine ⟨?_, ?_, ?_, ?_, ?_⟩
  · intro h1 h2
    simp [getPort, h1, h2]
  · intro h1 h2
    simp [getPort, h1, h2]
  · simp [getPort, containsRune]
  · simp [getPort, containsRune]
  · simp [getPort, containsRune]

/-- C3 witness: the spec's three sample resolutions, via C3_getPort. -/
theorem C3_witness :
    getPort (some 7) "8080" = some ":8080" ∧
    getPort (some 7) "127.0.0.1:9090" = some "127.0.0.1:9090" ∧
    getPort (some 7) ":0" = some ":7" := by
  refine ⟨?_, ?_, ?_⟩
  · exact (C3_getPort 7 "8080").1 (by decide) (by decide)
  · exact (C3_getPort 7 "127.0.0.1:9090").2.1 (by decide) (by decide)
  · exact (C3_getPort 7 ":0").2.2.1

/-- C5 counterexample: the claim says the closed set of accepted modes has
exactly the three values prod, dev, test and that every other string is a
fatal error; but SetMode also accepts the empty string (treating it as
prod), without error. -/
theorem C5_counterexample :
    exceptOk (SetMode (newEngine "Z") "") = true ∧
    SetMode (newEngine "Z") "" =
      .ok { newEngine "Z" with webMode := prodCode, webModeName := ProdMode,
                               logLevel := .success } := by
  constructor
  · rfl
  · rfl

/-- C5 (amended): SetMode accepts exactly the four values "prod", "dev",
"test" and "" (the empty string is normalized to prod); each accepted value
sets the engine's webMode and log level as shown; every other value raises
the fatal `Log.Panic` configuration error. -/
theorem C5_setMode (e : Engine) (v : String) :
    SetMode e ProdMode =
      .ok { e with webMode := prodCode, webModeName := ProdMode, logLevel := .success } ∧
    SetMode e DebugMode =
      .ok { e with webMode := debugCode, webModeName := DebugMode, logLevel := .dump } ∧
    SetMode e TestMode =
      .ok { e with webMode := testCode, webModeName := TestMode, logLevel := .info } ∧
    SetMode e "" =
      .ok { e with webMode := prodCode, webModeName := ProdMode, logLevel := .success } ∧
    (v ≠ ProdMode → v ≠ DebugMode → v ≠ TestMode → v ≠ "" →
      SetMode e v = .error ("web mode unknown: " ++ v)) := by
  refine ⟨?_, ?_, ?_, ?_, ?_⟩
  · simp [SetMode, ProdMode, DebugMode, TestMode]
  · simp [SetMode, ProdMode, DebugMode, TestMode]
  · simp [SetMode, ProdMode, DebugMode, TestMode]
  · simp [SetMode, ProdMode, DebugMode, TestMode]
  · intro h1 h2 h3 h4
    simp only [ProdMode] at h1
    simp only [DebugMode] at h2
    simp only [TestMode] at h3
    simp [SetMode, ProdMode, DebugMode, TestMode, h1, h2, h3, h4]

/-- C5 witness: an unrecognized mode string is rejected, via C5_setMode. -/
theorem C5_witness :
    SetMode (newEngine "Z") "release" = .error ("web mode unknown: " ++ "release") :=
  (C5_setMode (newEngine "Z") "release").2.2.2.2
    (by decide) (by decide) (by decide) (by decide)

theorem lookupName_cons (k : String) (e : Engine) (r : Registry) (n : String) :
    lookupName ((k, e) :: r) n = if k = n then some e else lookupName r n := by
  by_cases h : k = n
  · rw [if_pos h]
    unfold lookupName
    rw [List.find?_cons_of_pos _ (by simpa using h)]
    rfl
  · rw [if_neg h]
    unfold lookupName
    rw [List.find?_cons_of_neg _ (by simpa using h)]

/-- C4: registering a name already present is fatal; two `New` calls under
distinct absent names both succeed and each engine stays retrievable under
its own name; `Server` on a registered name returns exactly that engine,
leaves the registry untouched and logs nothing; `Server` on an absent name
registers and returns the fresh default engine and logs the warning. -/
theorem C4_registry (r : Registry) (n m : String) (e : Engine) :
    ((lookupName r n).isSome = true → exceptOk (New r [n]) = false) ∧
    (∀ e1 r1 e2 r2, n ≠ m → lookupName r n = none → lookupName r m = none →
      New r [n] = .ok (e1, r1) → New r1 [m] = .ok (e2, r2) →
      lookupName r2 n = some e1 ∧ lookupName r2 m = some e2) ∧
    (lookupName r n = some e → Server r [n] = .ok (e, true, r, false)) ∧
    (lookupName r n = none →
      Server r [n] = .ok (newEngine n, false, (n, newEngine n) :: r, true)) := by
  refine ⟨?_, ?_, ?_, ?_⟩
  · intro h
    simp [New, h, exceptOk]
  · intro e1 r1 e2 r2 hnm hn hm h1 h2
    have hb1 : New r [n] = .ok (newEngine n, (n, newEngine n) :: r) := by
      simp [New, hn]
    rw [hb1] at h1
    simp only [Except.ok.injEq, Prod.mk.injEq] at h1
    obtain ⟨he1, hr1⟩ := h1
    have hm1 : lookupName r1 m = none := by
      rw [← hr1, lookupName_cons, if_neg hnm, hm]
    have hb2 : New r1 [m] = .ok (newEngine m, (m, newEngine m) :: r1) := by
      simp [New, hm1]
    rw [hb2] at h2
    simp only [Except.ok.injEq, Prod.mk.injEq] at h2
    obtain ⟨he2, hr2⟩ := h2
    constructor
    · rw [← hr2, lookupName_cons, if_neg (fun hc => hnm hc.symm), ← hr1,
        lookupName_cons, if_pos rfl, he1]
    · rw [← hr2, lookupName_cons, if_pos rfl, he2]
  · intro h
    simp [Server, h]
  · intro h
    simp [Server, h, New]

/-- C4 witness: from the empty registry, registering "a" then "b" leaves
both retrievable, via C4_registry. -/
theorem C4_witness :
    lookupName [("b", newEngine "b"), ("a", newEngine "a")] "a" = some (newEngine "a") ∧
    lookupName [("b", newEngine "b"), ("a", newEngine "a")] "b" = some (newEngine "b") :=
  (C4_registry [] "a" "b" (newEngine "a")).2.1 (newEngine "a") [("a", newEngine "a")]
    (newEngine "b") [("b", newEngine "b"), ("a", newEngine "a")]
    (by decide) rfl rfl rfl rfl

theorem mem_shutdownTaskTrace (x : Event) (k s : Bool) (a : String) :
    x ∈ shutdownTaskTrace k s a ↔
      (x = Event.done ∨ x = Event.shutdownCall a ∨
       (s = true ∧ x = Event.forceClose a) ∨
       (k = true ∧ (x = Event.log LogAction.info ∨
         (s = true ∧ x = Event.log LogAction.errorL) ∨
         (s = false ∧ x = Event.log LogAction.success)))) := by
  cases k <;> cases s <;> simp [shutdownTaskTrace] <;> tauto

/-- C2: a successor-process spawn is attempted iff the termination is not
an externally observed kill and hot restart is not disabled, and in that
case exactly one spawn attempt occurs in the whole orchestration run (both
up to the barrier and in the full returned trace); under an external kill
no spawn ever occurs. -/
theorem C2_spawn (i : RunInput) :
    (runPreWait i).count Event.spawnAttempt =
      (if i.iskill = false ∧ i.closeHotRestart = false then 1 else 0) ∧
    (runFull i).count Event.spawnAttempt =
      (if i.iskill = false ∧ i.closeHotRestart = false then 1 else 0) := by
  have hflat : ∀ b, ((srvEntries i).flatMap
      (fun p => shutdownTaskTrace b p.2.shutdownErr p.1)).count
        Event.spawnAttempt = 0 := by
    intro b
    rw [List.count_eq_zero]
    intro hmem
    rw [List.mem_flatMap] at hmem
    obtain ⟨p, _, hp⟩ := hmem
    rw [mem_shutdownTaskTrace] at hp
    simp at hp
  have hpre : (runPreWait i).count Event.spawnAttempt =
      (if i.iskill = false ∧ i.closeHotRestart = false then 1 else 0) := by
    unfold runPreWait
    cases hk : i.iskill <;> cases hc : i.closeHotRestart <;>
      by_cases hm : i.fileMd5 = "" <;> cases hs : i.spawnErr <;>
        simp [runNewProcessTrace, hm, hs, List.count_append, hflat]
  refine ⟨hpre, ?_⟩
  unfold runFull
  cases hd : i.shutdownDoneSet <;>
    simp [List.count_append, hpre, hd]

/-- C6: the shutdown deadline context of 20 time units is established
exactly once per orchestration run; a shutdown task force-closes the
underlying server exactly when the bounded graceful stop returned an
error; both the forced-closure warning line and the shutdown-success line
appear in the task's trace only when the termination was an externally
observed kill, and under a non-external termination the task logs nothing
at all. -/
theorem C6_shutdown (i : RunInput) (iskill shutErr : Bool) (a : String) :
    (runPreWait i).count (Event.ctxTimeout 20) = 1 ∧
    (Event.forceClose a ∈ shutdownTaskTrace iskill shutErr a ↔ shutErr = true) ∧
    (Event.log LogAction.errorL ∈ shutdownTaskTrace iskill shutErr a ↔
      shutErr = true ∧ iskill = true) ∧
    (Event.log LogAction.success ∈ shutdownTaskTrace iskill shutErr a ↔
      shutErr = false ∧ iskill = true) ∧
    (iskill = false → ∀ la, Event.log la ∉ shutdownTaskTrace iskill shutErr a) := by
  have hflat : ∀ b, ((srvEntries i).flatMap
      (fun p => shutdownTaskTrace b p.2.shutdownErr p.1)).count
        (Event.ctxTimeout 20) = 0 := by
    intro b
    rw [List.count_eq_zero]
    intro hmem
    rw [List.mem_flatMap] at hmem
    obtain ⟨p, _, hp⟩ := hmem
    rw [mem_shutdownTaskTrace] at hp
    simp at hp
  refine ⟨?_, ?_, ?_, ?_, ?_⟩
  · unfold runPreWait
    cases hk : i.iskill <;> cases hc : i.closeHotRestart <;>
      by_cases hm : i.fileMd5 = "" <;> cases hs : i.spawnErr <;>
        simp [runNewProcessTrace, hm, hs, List.count_append, hflat]
  · cases iskill <;> cases shutErr <;> simp [shutdownTaskTrace]
  · cases iskill <;> cases shutErr <;> simp [shutdownTaskTrace]
  · cases iskill <;> cases shutErr <;> simp [shutdownTaskTrace]
  · intro hnk la
    subst hnk
    cases shutErr <;> simp [shutdownTaskTrace]

/-- C6 witness: under a non-external (self-restart) termination a shutdown
task logs nothing at all, via C6_shutdown. -/
theorem C6_witness :
    ∀ la, Event.log la ∉ shutdownTaskTrace false true ":3788" :=
  (C6_shutdown { listeners := [], iskill := false, closeHotRestart := true,
                 fileMd5 := "", spawnErr := false, shutdownDoneSet := false }
     false true ":3788").2.2.2.2 rfl

theorem callback_not_mem_runPreWait (i : RunInput) :
    Event.callback ∉ runPreWait i := by
  unfold runPreWait
  intro h
  rw [List.mem_append] at h
  rcases h with h | h
  · rw [List.mem_append] at h
    rcases h with h | h
    · simp at h
    · by_cases hc : (!i.iskill && !i.closeHotRestart) = true
      · rw [if_pos hc] at h
        unfold runNewProcessTrace at h
        by_cases hm : i.fileMd5 = "" <;> cases hs : i.spawnErr <;>
          simp [hm, hs] at h
      · rw [if_neg hc] at h
        simp at h
  · rw [List.mem_flatMap] at h
    obtain ⟨p, _, hp⟩ := h
    rw [mem_shutdownTaskTrace] at hp
    simp at hp

theorem runFull_eq (i : RunInput) :
    runFull i = runPreWait i ++
      ((if i.shutdownDoneSet then [Event.callback] else []) ++ [Event.sleep 100]) := by
  unfold runFull
  rw [List.append_assoc]

/-- C7: when the join barrier releases, Run returns the full trace; in it
the ShutdownDone callback occurs exactly once when set (zero times when
unset), every Done signal of a shutdown task strictly precedes any
callback occurrence, and the callback is immediately followed by the
100 ms drain sleep, which is the final event before Run returns. -/
theorem C7_callback (i : RunInput) (h : runReleases i = true) :
    runTrace i = some (runFull i) ∧
    (runFull i).count Event.callback = (if i.shutdownDoneSet = true then 1 else 0) ∧
    (∀ (j k : Nat), (runFull i)[j]? = some Event.done →
      (runFull i)[k]? = some Event.callback → j < k) ∧
    (∀ (k : Nat), (runFull i)[k]? = some Event.callback →
      (runFull i)[k + 1]? = some (Event.sleep 100) ∧ (runFull i).length = k + 2) := by
  have htr : runTrace i = some (runFull i) := by
    unfold runTrace
    rw [if_pos h]
  set L := (runPreWait i).length with hLdef
  have hcb : ∀ (k : Nat), (runFull i)[k]? = some Event.callback →
      i.shutdownDoneSet = true ∧ k = L := by
    intro k hk
    rw [runFull_eq] at hk
    rcases Nat.lt_or_ge k L with hlt | hge
    · rw [List.getElem?_append_left hlt] at hk
      exact absurd (List.getElem?_mem hk) (callback_not_mem_runPreWait i)
    · rw [List.getElem?_append_right hge] at hk
      cases hd : i.shutdownDoneSet with
      | false =>
        cases hkl : k - L with
        | zero => simp [hd, hkl] at hk
        | succ nn => simp [hd, hkl] at hk
      | true =>
        cases hkl : k - L with
        | zero => exact ⟨rfl, by omega⟩
        | succ nn =>
          cases nn with
          | zero => simp [hd, hkl] at hk
          | succ n2 => simp [hd, hkl] at hk
  have hdone : ∀ (j : Nat), (runFull i)[j]? = some Event.done → j < L := by
    intro j hj
    rcases Nat.lt_or_ge j L with hlt | hge
    · exact hlt
    · rw [runFull_eq, List.getElem?_append_right hge] at hj
      have hmem := List.getElem?_mem hj
      cases hd : i.shutdownDoneSet <;> simp [hd] at hmem
  have hcount : (runFull i).count Event.callback =
      (if i.shutdownDoneSet = true then 1 else 0) := by
    rw [runFull_eq, List.count_append]
    rw [List.count_eq_zero.2 (callback_not_mem_runPreWait i)]
    cases hd : i.shutdownDoneSet <;> simp [hd]
  refine ⟨htr, hcount, ?_, ?_⟩
  · intro j k hj hk
    have h1 := hdone j hj
    have h2 := (hcb k hk).2
    omega
  · intro k hk
    obtain ⟨hset, hkL⟩ := hcb k hk
    subst hkL
    constructor
    · rw [runFull_eq, List.getElem?_append_right (by omega)]
      simp [hset, Nat.add_sub_cancel_left]
    · rw [runFull_eq, List.length_append]
      simp [hset]

/-- C7 witness: a concrete single-listener run whose barrier releases, via
C7_callback. -/
theorem C7_witness :
    (runFull { listeners := [{ addr := ":3788", shutdownErr := false }],
               iskill := true, closeHotRestart := true, fileMd5 := "x",
               spawnErr := false, shutdownDoneSet := true }).count Event.callback = 1 := by
  have h := (C7_callback { listeners := [{ addr := ":3788", shutdownErr := false }],
                           iskill := true, closeHotRestart := true, fileMd5 := "x",
                           spawnErr := false, shutdownDoneSet := true } (by decide)).2.1
  simpa using h

/-- C8: whenever a listener goroutine reaches its blocking serve call, the
(address, server) pair was stored in the runtime registry strictly earlier:
the store is the very first event of the listener trace and the serve call
lies strictly inside its tail. -/
theorem C8_store_before_serve (fp : Option Nat) (cfg : AddrSt) (se : ServeErr)
    (tr : List Event) (h : listenerTrace fp cfg se = some tr) :
    ∃ a rest, getPort fp cfg.addr = some a ∧
      tr = Event.storeSrv a :: rest ∧
      Event.serveCall a (isTls cfg.tls) ∈ rest := by
  unfold listenerTrace at h
  cases hg : getPort fp cfg.addr with
  | none =>
    rw [hg] at h
    exact absurd h (by simp)
  | some a =>
    rw [hg] at h
    have htr := (Option.some.inj h).symm
    rw [List.append_assoc, List.append_assoc, List.singleton_append] at htr
    exact ⟨a, _, rfl, htr, by simp⟩

/-- C8 witness: a concrete plain listener, via C8_store_before_serve. -/
theorem C8_witness :
    ∃ a rest,
      getPort none (AddrSt.mk ":8080" {}).addr = some a ∧
      [Event.storeSrv ":8080", Event.serveCall ":8080" false] =
        Event.storeSrv a :: rest ∧
      Event.serveCall a (isTls (AddrSt.mk ":8080" {}).tls) ∈ rest :=
  C8_store_before_serve none (AddrSt.mk ":8080" {}) ServeErr.closed
    [Event.storeSrv ":8080", Event.serveCall ":8080" false] (by rfl)

/-- C9: TLS is active iff a certificate path or a TLS configuration is
present; the companion plaintext goroutine is launched iff TLS is active
and a secondary plaintext address is configured; the serving strategy is
selected by the dynamic type of the configured redirect value — domain
string to redirect handler, custom handler to itself, anything else to the
same Engine — and these three are mutually exclusive; the companion's
listener error is logged at error severity and is never fatal. -/
theorem C9_companion (t : TlsCfg) (a d : String) (p : HTTPProcessing) :
    (isTls t = true ↔ (t.cert ≠ "" ∨ t.hasConfig = true)) ∧
    (companionStarted t = true ↔ (isTls t = true ∧ t.httpAddr ≠ "")) ∧
    (selectStrategy p = Strategy.redirect d ↔ p = HTTPProcessing.str d) ∧
    (selectStrategy p = Strategy.custom ↔ p = HTTPProcessing.handler) ∧
    (selectStrategy p = Strategy.engine ↔ p = HTTPProcessing.other) ∧
    (∀ s, Event.log (LogAction.fatal s) ∉ companionTrace a p) ∧
    Event.log LogAction.errorL ∈ companionTrace a p := by
  refine ⟨?_, ?_, ?_, ?_, ?_, ?_, ?_⟩
  · simp [isTls]
  · simp [companionStarted]
  · cases p <;> simp [selectStrategy]
  · cases p <;> simp [selectStrategy]
  · cases p <;> simp [selectStrategy]
  · intro s
    simp [companionTrace]
  · simp [companionTrace]

/-- C10: the barrier counts one Add per launched listener but one Done per
srvMap entry, and srvMap stores overwrite on equal address keys; hence
`m.Wait()` releases iff the resolved bind addresses are pairwise distinct;
with a duplicate address strictly fewer shutdown tasks than listener tasks
signal, Run never returns and the completion callback never fires. -/
theorem C10_barrier (i : RunInput) :
    (runReleases i = true ↔ (i.listeners.map ListenerSpec.addr).Nodup) ∧
    (¬ (i.listeners.map ListenerSpec.addr).Nodup →
      doneCount i < addCount i ∧ runTrace i = none) ∧
    ((i.listeners.map ListenerSpec.addr).Nodup → runTrace i = some (runFull i)) := by
  have hiff : runReleases i = true ↔ (i.listeners.map ListenerSpec.addr).Nodup := by
    unfold runReleases doneCount addCount srvEntries
    rw [beq_iff_eq]
    exact storeAll_length_eq_iff i.listeners
  refine ⟨hiff, ?_, ?_⟩
  · intro h
    refine ⟨storeAll_length_lt i.listeners h, ?_⟩
    unfold runTrace
    rw [if_neg (fun hc => h (hiff.1 hc))]
  · intro h
    unfold runTrace
    rw [if_pos (hiff.2 h)]

/-- C10 witness: two listeners resolving to the same address deadlock the
barrier (fewer Done than Add; Run never returns), via C10_barrier. -/
theorem C10_witness :
    doneCount { listeners := [{ addr := ":3788", shutdownErr := false },
                              { addr := ":3788", shutdownErr := true }],
                iskill := false, closeHotRestart := true, fileMd5 := "",
                spawnErr := false, shutdownDoneSet := true } <
      addCount { listeners := [{ addr := ":3788", shutdownErr := false },
                               { addr := ":3788", shutdownErr := true }],
                 iskill := false, closeHotRestart := true, fileMd5 := "",
                 spawnErr := false, shutdownDoneSet := true } ∧
    runTrace { listeners := [{ addr := ":3788", shutdownErr := false },
                             { addr := ":3788", shutdownErr := true }],
               iskill := false, closeHotRestart := true, fileMd5 := "",
               spawnErr := false, shutdownDoneSet := true } = none :=
  (C10_barrier { listeners := [{ addr := ":3788", shutdownErr := false },
                               { addr := ":3788", shutdownErr := true }],
                 iskill := false, closeHotRestart := true, fileMd5 := "",
                 spawnErr := false, shutdownDoneSet := true }).2.1 (by decide)

end Znet
